import Mathlib

/-!
Verification of the bill-splitter function app (`src/function_app.py`).

The three handlers — `get_upload_url`, `get_receipt_results` and
`AnalyzeReceipt` — are shallowly embedded below.  Python runtime values
that flow through the analysis response are modelled by the inductive
`PyVal`; machine floats are modelled at rational precision (`ℚ`);
the Azure SDK `DocumentField` objects are collapsed to their `.value`
payload, the only attribute the code ever reads (the field object itself
is always truthy, which the embedding reflects by `Option.isSome`).
Exceptions are modelled by `Except String`.
-/

namespace BillSplitter

/-- A Python runtime value as it appears in the analysis response and in
the stored record: `None`, a string, a number (at rational precision),
a list, or a string-keyed dict. -/
inductive PyVal where
  | none
  | str (s : String)
  | num (q : ℚ)
  | list (elems : List PyVal)
  | dict (entries : List (String × PyVal))

/-- Python truthiness of a `PyVal`: `None`, `""`, `0`, `[]` and `{}` are
falsy, everything else is truthy. -/
def truthy : PyVal → Bool
  | PyVal.none => false
  | PyVal.str s => !(s == "")
  | PyVal.num q => !(q == 0)
  | PyVal.list elems => !elems.isEmpty
  | PyVal.dict entries => !entries.isEmpty

/-- Python's `x or d`: `x` when truthy, else `d`.  The code uses this as
`... .value or 0` to default falsy values to `0`. -/
def pyOr (v d : PyVal) : PyVal := if truthy v then v else d

/-- Dictionary lookup, modelling Python `d.get(k)` (keys are unique in a
Python dict; first match in the association list). -/
def getField (k : String) : List (String × PyVal) → Option PyVal
  | [] => Option.none
  | (k', v) :: rest => if k' = k then some v else getField k rest

/-- Models the idiom `d.get(k, {}).value`: when the key is present the
result is the field's value; when it is absent, `{}` (a plain dict) has
no `.value` attribute, so an `AttributeError` is raised. -/
def getValueOrRaise (k : String) (entries : List (String × PyVal)) : Except String PyVal :=
  match getField k entries with
  | some v => Except.ok v
  | Option.none => Except.error ("AttributeError: dict object has no attribute value: " ++ k)

/-- Python's `sum(...)` over a list of values, starting from `0`: adds
numbers, raises `TypeError` on any non-numeric element. -/
def pySum : List PyVal → Except String ℚ
  | [] => Except.ok 0
  | v :: rest =>
    match v with
    | PyVal.num q =>
      match pySum rest with
      | Except.error e => Except.error e
      | Except.ok s => Except.ok (q + s)
    | _ => Except.error "TypeError: unsupported operand type for +"

/-- Python's `round(x, 2)` at rational precision: round `100·x` to an
integer and divide back.  (The tie-breaking convention is immaterial to
every property proved below.) -/
def round2 (q : ℚ) : ℚ := ((round (q * 100) : ℤ) : ℚ) / 100

/-- Models Python's `json.dumps`/`json.loads` pair on the items list as
an abstract inverse pair: the record stores the serialized text form,
whose concrete bytes are not modelled — only that `json_loads` recovers
exactly the structure passed to `json_dumps`. -/
structure EncodedJson (α : Type) where
  decoded : α

/-- `json.dumps`: wrap a structure as its serialized form. -/
def json_dumps {α : Type} (a : α) : EncodedJson α := ⟨a⟩

/-- `json.loads`: recover the structure from its serialized form. -/
def json_loads {α : Type} (e : EncodedJson α) : α := e.decoded

/-- One element appended to `items_list` by `AnalyzeReceipt`:
`{"description": ..., "totalPrice": ...}`. -/
structure ReceiptItem where
  description : PyVal
  totalPrice : PyVal

/-- One recognized document of the analysis response: its `fields`
dict (string keys to `DocumentField` values, collapsed to `PyVal`). -/
structure AnalyzedDocument where
  fields : List (String × PyVal)

/-- The document-analysis result: its list of recognized documents. -/
structure AnalysisResult where
  documents : List AnalyzedDocument

/-- The entity `AnalyzeReceipt` writes to the results table
(`output_data` at lines 124-131 of `function_app.py`). -/
structure TableRecord where
  partitionKey : String
  rowKey : String
  items : EncodedJson (List ReceiptItem)
  subtotal : ℚ
  tax : PyVal
  total : PyVal

/-! ### Filename handling: `split('/')[-1]` and `os.path.splitext` -/

/-- Python `str.split(c)` on a single-character separator, over the
character list. -/
def splitChar (c : Char) : List Char → List (List Char)
  | [] => [[]]
  | x :: xs =>
    let rest := splitChar c xs
    if x = c then [] :: rest
    else
      match rest with
      | [] => [[x]]
      | h :: t => (x :: h) :: t

/-- Python `name.split('/')[-1]`: the last path component. -/
def lastComponent (s : String) : String := ⟨(splitChar '/' s.data).getLastD []⟩

/-- Index of the last occurrence of `c` in `l` (Python `str.rfind`). -/
def lastIdxOf (c : Char) : List Char → Option Nat
  | [] => Option.none
  | x :: xs =>
    match lastIdxOf c xs with
    | some i => some (i + 1)
    | Option.none => if x = c then some 0 else Option.none

/-- `os.path.splitext` (posix): split at the last `.` of the final path
component, unless every character of the component before that dot is
itself a dot (so leading dots never start an extension). -/
def splitext (s : String) : String × String :=
  let l := s.data
  let fstart := ((lastIdxOf '/' l).map (fun i => i + 1)).getD 0
  match lastIdxOf '.' l with
  | Option.none => (s, "")
  | some d =>
    if (List.range' fstart (d - fstart)).any (fun i => l.getD i ' ' != '.') then
      (⟨l.take d⟩, ⟨l.drop d⟩)
    else (s, "")

/-- `receipt_id` as computed at line 91:
`os.path.splitext(blob.name.split('/')[-1])[0]`. -/
def receiptIdOfBlobName (blobName : String) : String := (splitext (lastComponent blobName)).1

/-! ### AnalyzeReceipt (lines 90-136) -/

/-- The per-item body of the loop at lines 115-120: `item_props = item.value`
must be a dict (anything else raises `AttributeError` at `.get`), then
`description` is `item_props.get("Description", {}).value` (raises when
absent, no default) and `totalPrice` is
`item_props.get("TotalPrice", {}).value or 0`. -/
def extractItem (itemVal : PyVal) : Except String ReceiptItem :=
  match itemVal with
  | PyVal.dict props =>
    match getValueOrRaise "Description" props with
    | Except.error e => Except.error e
    | Except.ok d =>
      match getValueOrRaise "TotalPrice" props with
      | Except.error e => Except.error e
      | Except.ok p => Except.ok { description := d, totalPrice := pyOr p (PyVal.num 0) }
  | _ => Except.error "AttributeError: object has no attribute get"

/-- The loop at lines 115-120 over the elements of `Items.value`. -/
def extractItems : List PyVal → Except String (List ReceiptItem)
  | [] => Except.ok []
  | v :: rest =>
    match extractItem v with
    | Except.error e => Except.error e
    | Except.ok it =>
      match extractItems rest with
      | Except.error e => Except.error e
      | Except.ok l => Except.ok (it :: l)

/-- Line 114: `if receipt.get("Items") and receipt.get("Items").value:` —
the loop runs only when the `Items` field is present and its value
truthy; a truthy non-list value raises when the loop body touches its
elements.  Returns the element list to iterate (empty when the guard is
falsy). -/
def itemValuesOf (entries : List (String × PyVal)) : Except String (List PyVal) :=
  match getField "Items" entries with
  | Option.none => Except.ok []
  | some v =>
    if truthy v then
      match v with
      | PyVal.list elems => Except.ok elems
      | _ => Except.error "AttributeError: object has no attribute get"
    else Except.ok []

/-- Lines 113-131: build `output_data` from the first document's fields:
extract the items, compute `round(sum(...), 2)`, then read
`receipt.get("TotalTax", {}).value or 0` and
`receipt.get("Total", {}).value or 0`. -/
def buildRecord (receiptId : String) (entries : List (String × PyVal)) :
    Except String TableRecord :=
  match itemValuesOf entries with
  | Except.error e => Except.error e
  | Except.ok itemVals =>
    match extractItems itemVals with
    | Except.error e => Except.error e
    | Except.ok itemsList =>
      match pySum (itemsList.map (fun it => it.totalPrice)) with
      | Except.error e => Except.error e
      | Except.ok s =>
        match getValueOrRaise "TotalTax" entries with
        | Except.error e => Except.error e
        | Except.ok taxVal =>
          match getValueOrRaise "Total" entries with
          | Except.error e => Except.error e
          | Except.ok totalVal =>
            Except.ok
              { partitionKey := "receipt"
                rowKey := receiptId
                items := json_dumps itemsList
                subtotal := round2 s
                tax := pyOr taxVal (PyVal.num 0)
                total := pyOr totalVal (PyVal.num 0) }

/-- The body of the `try` block (lines 94-134).  The client construction,
SAS generation and analysis call are summarized by `analysisOutcome`:
`Except.error` when any of those steps raises, `Except.ok` with the
analysis result otherwise.  `Except.ok Option.none` means the function
completed without calling `tableOutput.set` (zero documents). -/
def analyzeReceiptBody (analysisOutcome : Except String AnalysisResult)
    (receiptId : String) : Except String (Option TableRecord) :=
  match analysisOutcome with
  | Except.error e => Except.error e
  | Except.ok result =>
    match result.documents with
    | [] => Except.ok Option.none
    | doc :: _ =>
      match buildRecord receiptId doc.fields with
      | Except.error e => Except.error e
      | Except.ok r => Except.ok (some r)

/-- `AnalyzeReceipt` (lines 90-136): derive the receipt id from the blob
name, run the body, and swallow any exception (lines 135-136) — the
function always returns normally; its result is the record written to
the table output, or `Option.none` when nothing was written. -/
def AnalyzeReceipt (blobName : String) (analysisOutcome : Except String AnalysisResult) :
    Option TableRecord :=
  match analyzeReceiptBody analysisOutcome (receiptIdOfBlobName blobName) with
  | Except.ok r => r
  | Except.error _ => Option.none

/-! ### The results table -/

/-- The results table's contents, as a list of records. -/
abbrev ResultsTable := List TableRecord

/-- Modelled from the spec: the external table store's write overwrites
any existing record with the same (partition key, row key) — "a
redelivered event would overwrite the same record".  The store itself is
an opaque external collaborator, not code of this repository. -/
def upsert (t : ResultsTable) (r : TableRecord) : ResultsTable :=
  r :: t.filter (fun x => !(x.partitionKey == r.partitionKey && x.rowKey == r.rowKey))

/-- Apply the (possibly absent) write of one `AnalyzeReceipt` run to the
table. -/
def applyWrite (t : ResultsTable) (w : Option TableRecord) : ResultsTable :=
  match w with
  | Option.none => t
  | some r => upsert t r

/-- Outcome of `table_client.get_entity`: the entity, the
`ResourceNotFoundError`, or any other exception. -/
inductive LookupOutcome where
  | found (entity : TableRecord)
  | notFound
  | failure (msg : String)

/-- `get_entity` against the table contents: found when a record with
the given keys exists, `ResourceNotFoundError` otherwise. -/
def lookupOfTable (t : ResultsTable) (pk rk : String) : LookupOutcome :=
  match t.find? (fun r => r.partitionKey == pk && r.rowKey == rk) with
  | some r => LookupOutcome.found r
  | Option.none => LookupOutcome.notFound

/-! ### HTTP responses -/

/-- The record as returned by `get_receipt_results` after lines 74-75
decoded the `items` string back into a structured list. -/
structure DecodedEntity where
  partitionKey : String
  rowKey : String
  items : List ReceiptItem
  subtotal : ℚ
  tax : PyVal
  total : PyVal

/-- Lines 74-75: the stored `items` attribute is a string, so it is
decoded with `json.loads` before the entity is returned. -/
def decodeEntity (e : TableRecord) : DecodedEntity :=
  { partitionKey := e.partitionKey
    rowKey := e.rowKey
    items := json_loads e.items
    subtotal := e.subtotal
    tax := e.tax
    total := e.total }

/-- An HTTP response body: plain text, a JSON object of string fields,
or the JSON-encoded entity. -/
inductive ResponseBody where
  | text (msg : String)
  | jsonObj (pairs : List (String × String))
  | jsonRecord (e : DecodedEntity)

/-- An HTTP response: status code and body. -/
structure HttpResponse where
  statusCode : Nat
  body : ResponseBody

/-! ### get_receipt_results (lines 61-83) -/

/-- Lines 72-83: shape the response from the lookup outcome — 200 with
the decoded entity, 404 on `ResourceNotFoundError`, 500 on any other
exception. -/
def handleLookup (outcome : LookupOutcome) : HttpResponse :=
  match outcome with
  | LookupOutcome.found e => { statusCode := 200, body := ResponseBody.jsonRecord (decodeEntity e) }
  | LookupOutcome.notFound => { statusCode := 404, body := ResponseBody.text "Not found." }
  | LookupOutcome.failure _ => { statusCode := 500, body := ResponseBody.text "Error fetching results." }

/-- `get_receipt_results` (lines 61-83): 400 when the route parameter is
missing or empty (`if not blob_name`), otherwise look up
(`"receipt"`, `os.path.splitext(blob_name)[0]`) and shape the response.
The table access is abstracted as a lookup function so that all three
`get_entity` outcomes can be expressed. -/
def get_receipt_results (blobNameParam : Option String)
    (tableGet : String → String → LookupOutcome) : HttpResponse :=
  match blobNameParam with
  | Option.none => { statusCode := 400, body := ResponseBody.text "Please provide a blobName." }
  | some bn =>
    if bn = "" then { statusCode := 400, body := ResponseBody.text "Please provide a blobName." }
    else handleLookup (tableGet "receipt" (splitext bn).1)

/-! ### get_upload_url (lines 32-56) -/

/-- The external collaborators of `get_upload_url`: the storage account
name, the fresh `uuid.uuid4()` string, and the outcome of the client
construction plus `generate_blob_sas` (the SAS token, or the exception
any of those steps raised). -/
structure UploadDeps where
  accountName : String
  freshUuid : String
  sasOutcome : Except String String

/-- Line 37: `blob_name = f"{uuid.uuid4()}.jpg"`. -/
def uploadBlobName (deps : UploadDeps) : String := deps.freshUuid ++ ".jpg"

/-- Line 47: the full SAS URL string. -/
def uploadSasUrl (deps : UploadDeps) (sasToken : String) : String :=
  "https://" ++ deps.accountName ++ ".blob.core.windows.net/receipts/" ++
    uploadBlobName deps ++ "?" ++ sasToken

/-- `get_upload_url` (lines 32-56): on success, 200 with the JSON body
`{"sasUrl": ..., "blobName": ...}`; on any exception, 500 with a plain
message. -/
def get_upload_url (deps : UploadDeps) : HttpResponse :=
  match deps.sasOutcome with
  | Except.error _ => { statusCode := 500, body := ResponseBody.text "Failed to generate upload URL." }
  | Except.ok sasToken =>
    { statusCode := 200
      body := ResponseBody.jsonObj
        [("sasUrl", uploadSasUrl deps sasToken), ("blobName", uploadBlobName deps)] }

/-! ### Inversion lemmas -/

/-- A successful `AnalyzeReceipt` run came from a successful analysis
call with at least one document, and the record was built from the first
document's fields. -/
theorem analyzeReceipt_eq_some (bn : String) (a : Except String AnalysisResult)
    (r : TableRecord) (h : AnalyzeReceipt bn a = some r) :
    ∃ result doc rest, a = Except.ok result ∧ result.documents = doc :: rest ∧
      buildRecord (receiptIdOfBlobName bn) doc.fields = Except.ok r := by
  cases a with
  | error e => simp [AnalyzeReceipt, analyzeReceiptBody] at h
  | ok result =>
    cases hd : result.documents with
    | nil => simp [AnalyzeReceipt, analyzeReceiptBody, hd] at h
    | cons doc rest =>
      cases hb : buildRecord (receiptIdOfBlobName bn) doc.fields with
      | error e => simp [AnalyzeReceipt, analyzeReceiptBody, hd, hb] at h
      | ok r' =>
        simp only [AnalyzeReceipt, analyzeReceiptBody, hd, hb, Option.some.injEq] at h
        exact ⟨result, doc, rest, rfl, hd, by rw [← h]; exact hb⟩

/-- Decompose a successful `buildRecord` into its five successful steps
and the record they produce. -/
theorem buildRecord_eq_ok (rid : String) (entries : List (String × PyVal))
    (r : TableRecord) (h : buildRecord rid entries = Except.ok r) :
    ∃ itemVals itemsList s taxVal totalVal,
      itemValuesOf entries = Except.ok itemVals ∧
      extractItems itemVals = Except.ok itemsList ∧
      pySum (itemsList.map (fun it => it.totalPrice)) = Except.ok s ∧
      getValueOrRaise "TotalTax" entries = Except.ok taxVal ∧
      getValueOrRaise "Total" entries = Except.ok totalVal ∧
      r = { partitionKey := "receipt", rowKey := rid, items := json_dumps itemsList,
            subtotal := round2 s, tax := pyOr taxVal (PyVal.num 0),
            total := pyOr totalVal (PyVal.num 0) } := by
  cases h1 : itemValuesOf entries with
  | error e => simp [buildRecord, h1] at h
  | ok itemVals =>
  cases h2 : extractItems itemVals with
  | error e => simp [buildRecord, h1, h2] at h
  | ok itemsList =>
  cases h3 : pySum (itemsList.map (fun it => it.totalPrice)) with
  | error e => simp [buildRecord, h1, h2, h3] at h
  | ok s =>
  cases h4 : getValueOrRaise "TotalTax" entries with
  | error e => simp [buildRecord, h1, h2, h3, h4] at h
  | ok taxVal =>
  cases h5 : getValueOrRaise "Total" entries with
  | error e => simp [buildRecord, h1, h2, h3, h4, h5] at h
  | ok totalVal =>
    simp only [buildRecord, h1, h2, h3, h4, h5, Except.ok.injEq] at h
    exact ⟨itemVals, itemsList, s, taxVal, totalVal, by simp [h1], by simp [h2],
      by simp [h3], by simp [h4], by simp [h5], h.symm⟩

/-- When `sum(...)` succeeds, every summand was a number. -/
theorem pySum_ok_mem (l : List PyVal) (s : ℚ) (h : pySum l = Except.ok s) :
    ∀ v ∈ l, ∃ q, v = PyVal.num q := by
  induction l generalizing s with
  | nil => intro v hv; cases hv
  | cons v rest ih =>
    intro w hw
    cases v with
    | num q =>
      cases h' : pySum rest with
      | error e => simp [pySum, h'] at h
      | ok s' =>
        rcases List.mem_cons.mp hw with h1 | h1
        · exact ⟨q, h1⟩
        · exact ih s' h' w h1
    | none => simp [pySum] at h
    | str s' => simp [pySum] at h
    | list elems => simp [pySum] at h
    | dict entries => simp [pySum] at h

/-- Every item produced by the extraction loop came from some element of
the iterated list. -/
theorem extractItems_mem (vs : List PyVal) (l : List ReceiptItem)
    (h : extractItems vs = Except.ok l) :
    ∀ it ∈ l, ∃ v ∈ vs, extractItem v = Except.ok it := by
  induction vs generalizing l with
  | nil =>
    simp only [extractItems, Except.ok.injEq] at h
    subst h; intro it hit; cases hit
  | cons v rest ih =>
    cases h1 : extractItem v with
    | error e => simp [extractItems, h1] at h
    | ok it0 =>
      cases h2 : extractItems rest with
      | error e => simp [extractItems, h1, h2] at h
      | ok l0 =>
        simp only [extractItems, h1, h2, Except.ok.injEq] at h
        subst h
        intro it hit
        rcases List.mem_cons.mp hit with rfl | hmem
        · exact ⟨v, List.mem_cons_self v rest, h1⟩
        · obtain ⟨w, hw, hok⟩ := ih l0 h2 it hmem
          exact ⟨w, List.mem_cons_of_mem v hw, hok⟩

/-- Characterize a successful per-item extraction: the element was a
dict with both `Description` and `TotalPrice` present, the description
is the raw `Description` value, and the price is the `TotalPrice` value
defaulted through `or 0`. -/
theorem extractItem_eq_ok (v : PyVal) (it : ReceiptItem)
    (h : extractItem v = Except.ok it) :
    ∃ props d p, v = PyVal.dict props ∧ getField "Description" props = some d ∧
      getField "TotalPrice" props = some p ∧
      it = { description := d, totalPrice := pyOr p (PyVal.num 0) } := by
  cases v with
  | dict props =>
    cases h1 : getField "Description" props with
    | none => simp [extractItem, getValueOrRaise, h1] at h
    | some d =>
      cases h2 : getField "TotalPrice" props with
      | none => simp [extractItem, getValueOrRaise, h1, h2] at h
      | some p =>
        simp only [extractItem, getValueOrRaise, h1, h2, Except.ok.injEq] at h
        exact ⟨props, d, p, rfl, h1, h2, h.symm⟩
  | none => simp [extractItem] at h
  | str s => simp [extractItem] at h
  | num q => simp [extractItem] at h
  | list elems => simp [extractItem] at h

/-- `x or 0` is never `None`: a truthy `x` is not `None`, and a falsy
one is replaced by `0`. -/
theorem pyOr_num_ne_none (v : PyVal) : pyOr v (PyVal.num 0) ≠ PyVal.none := by
  unfold pyOr
  split
  · next ht =>
    intro hc
    rw [hc] at ht
    simp [truthy] at ht
  · intro hc; cases hc

/-- In the table after an overwrite of `r`, the records carrying `r`'s
keys are exactly `[r]`. -/
theorem upsert_filter_key (t : ResultsTable) (r : TableRecord) :
    (upsert t r).filter
      (fun x => x.partitionKey == r.partitionKey && x.rowKey == r.rowKey) = [r] := by
  unfold upsert
  rw [List.filter_cons]
  simp only [beq_self_eq_true, Bool.and_self, if_true]
  rw [List.filter_filter]
  have : ∀ x : TableRecord,
      ((x.partitionKey == r.partitionKey && x.rowKey == r.rowKey) &&
        !(x.partitionKey == r.partitionKey && x.rowKey == r.rowKey)) = false := by
    intro x; cases (x.partitionKey == r.partitionKey && x.rowKey == r.rowKey) <;> rfl
  simp only [this, List.filter_false]

/-! ### Claim theorems -/

/-- C1: For every record written by `AnalyzeReceipt`, the stored
subtotal equals the sum of the extracted items' `totalPrice` values
rounded to 2 decimal places, and decoding the stored `items` attribute
(the JSON-serialized form) yields a list whose `totalPrice` sum, rounded
to 2 decimals, equals that stored subtotal. -/
theorem analyze_subtotal_matches_items (bn : String)
    (a : Except String AnalysisResult) (r : TableRecord)
    (h : AnalyzeReceipt bn a = some r) :
    (pySum ((json_loads r.items).map (fun it => it.totalPrice))).map round2 =
      Except.ok r.subtotal := by
  obtain ⟨result, doc, rest, -, -, hb⟩ := analyzeReceipt_eq_some bn a r h
  obtain ⟨iv, il, s, tv, tot, -, -, h3, -, -, hr⟩ := buildRecord_eq_ok _ _ _ hb
  subst hr
  show (pySum (il.map (fun it => it.totalPrice))).map round2 = Except.ok (round2 s)
  rw [h3]
  rfl

/-- Concrete inputs for the C1 witness: two recognized items priced 10
and 5.5, tax 1, total 16.5 (the spec's end-to-end scenario). -/
def resC1 : AnalysisResult :=
  ⟨[⟨[("Items", PyVal.list
        [PyVal.dict [("Description", PyVal.str "burger"), ("TotalPrice", PyVal.num 10)],
         PyVal.dict [("Description", PyVal.str "fries"), ("TotalPrice", PyVal.num (11 / 2))]]),
      ("TotalTax", PyVal.num 1), ("Total", PyVal.num (33 / 2))]⟩]⟩

/-- The record `AnalyzeReceipt` writes for `resC1`. -/
def recC1 : TableRecord :=
  { partitionKey := "receipt"
    rowKey := "abc123"
    items := json_dumps
      [{ description := PyVal.str "burger", totalPrice := PyVal.num 10 },
       { description := PyVal.str "fries", totalPrice := PyVal.num (11 / 2) }]
    subtotal := 31 / 2
    tax := PyVal.num 1
    total := PyVal.num (33 / 2) }

/-- Witness for C1 at the concrete scenario. -/
theorem analyze_subtotal_matches_items_witness :
    (pySum ((json_loads recC1.items).map (fun it => it.totalPrice))).map round2 =
      Except.ok recC1.subtotal :=
  analyze_subtotal_matches_items "receipts/abc123.jpg" (Except.ok resC1) recC1 (by
    simp [resC1, recC1, AnalyzeReceipt, analyzeReceiptBody, buildRecord, itemValuesOf,
      extractItems, extractItem, getValueOrRaise, getField, pySum, pyOr, truthy,
      receiptIdOfBlobName, splitext, lastComponent, splitChar, lastIdxOf, json_dumps,
      round2, round_eq]
    exact ⟨by decide, by norm_num⟩)

/-- C2 counterexample: an analysis response with one recognized document
whose `TotalTax` field is absent does not produce a record at all —
`receipt.get("TotalTax", {}).value` raises `AttributeError` on the plain
`{}` default, the exception is swallowed, and nothing is written,
contradicting "writes a record in which that field is 0". -/
theorem analyze_absent_tax_no_record :
    AnalyzeReceipt "abc.jpg" (Except.ok ⟨[⟨[("Total", PyVal.none)]⟩]⟩) = Option.none := by
  rfl

/-- C2 (amended): an absent tax or total field aborts the invocation
with no record written; a present-but-null item `TotalPrice` is
extracted as 0; and in every record that is written, the stored tax,
total and item `totalPrice` values are never `None`, with a tax or
total field that is present with a `None` value stored as 0. -/
theorem analyze_null_fields_default_zero (bn : String) (doc : AnalyzedDocument)
    (rest : List AnalyzedDocument) :
    (getField "TotalTax" doc.fields = Option.none →
      AnalyzeReceipt bn (Except.ok ⟨doc :: rest⟩) = Option.none) ∧
    (getField "Total" doc.fields = Option.none →
      AnalyzeReceipt bn (Except.ok ⟨doc :: rest⟩) = Option.none) ∧
    (∀ props d, getField "Description" props = some d →
      getField "TotalPrice" props = some PyVal.none →
      extractItem (PyVal.dict props) =
        Except.ok { description := d, totalPrice := PyVal.num 0 }) ∧
    (∀ r, AnalyzeReceipt bn (Except.ok ⟨doc :: rest⟩) = some r →
      r.tax ≠ PyVal.none ∧ r.total ≠ PyVal.none ∧
      (∀ it ∈ json_loads r.items, it.totalPrice ≠ PyVal.none) ∧
      (getField "TotalTax" doc.fields = some PyVal.none → r.tax = PyVal.num 0) ∧
      (getField "Total" doc.fields = some PyVal.none → r.total = PyVal.num 0)) := by
  refine ⟨?_, ?_, ?_, ?_⟩
  · intro habs
    cases hA : AnalyzeReceipt bn (Except.ok ⟨doc :: rest⟩) with
    | none => rfl
    | some r =>
      obtain ⟨result, doc', rest', hres, hdocs, hb⟩ := analyzeReceipt_eq_some _ _ _ hA
      injection hres with hres
      subst hres
      have hdd : doc :: rest = doc' :: rest' := hdocs
      injection hdd with hd ht
      subst hd
      obtain ⟨-, -, -, tv, -, -, -, -, h4, -, -⟩ := buildRecord_eq_ok _ _ _ hb
      rw [getValueOrRaise, habs] at h4
      cases h4
  · intro habs
    cases hA : AnalyzeReceipt bn (Except.ok ⟨doc :: rest⟩) with
    | none => rfl
    | some r =>
      obtain ⟨result, doc', rest', hres, hdocs, hb⟩ := analyzeReceipt_eq_some _ _ _ hA
      injection hres with hres
      subst hres
      have hdd : doc :: rest = doc' :: rest' := hdocs
      injection hdd with hd ht
      subst hd
      obtain ⟨-, -, -, -, tot, -, -, -, -, h5, -⟩ := buildRecord_eq_ok _ _ _ hb
      rw [getValueOrRaise, habs] at h5
      cases h5
  · intro props d hdesc hprice
    simp [extractItem, getValueOrRaise, hdesc, hprice, pyOr, truthy]
  · intro r hA
    obtain ⟨result, doc', rest', hres, hdocs, hb⟩ := analyzeReceipt_eq_some _ _ _ hA
    injection hres with hres
    subst hres
    have hdd : doc :: rest = doc' :: rest' := hdocs
    injection hdd with hd ht
    subst hd
    obtain ⟨iv, il, s, tv, tot, -, -, h3, h4, h5, hr⟩ := buildRecord_eq_ok _ _ _ hb
    subst hr
    refine ⟨pyOr_num_ne_none tv, pyOr_num_ne_none tot, ?_, ?_, ?_⟩
    · intro it hit
      have hmem : it.totalPrice ∈ il.map (fun it => it.totalPrice) :=
        List.mem_map_of_mem _ hit
      obtain ⟨q, hq⟩ := pySum_ok_mem _ _ h3 _ hmem
      rw [hq]
      intro hc; cases hc
    · intro htax
      rw [getValueOrRaise, htax] at h4
      injection h4 with h4
      subst h4
      rfl
    · intro htot
      rw [getValueOrRaise, htot] at h5
      injection h5 with h5
      subst h5
      rfl

/-- Concrete inputs for the C2 witness: one item whose `TotalPrice` is
present but `None`, and tax and total fields present with `None`
values. -/
def docC2 : AnalyzedDocument :=
  ⟨[("Items", PyVal.list
      [PyVal.dict [("Description", PyVal.str "tea"), ("TotalPrice", PyVal.none)]]),
    ("TotalTax", PyVal.none), ("Total", PyVal.none)]⟩

/-- The record `AnalyzeReceipt` writes for `docC2`: the null item price
is stored as 0, as are the null tax and total. -/
def recC2 : TableRecord :=
  { partitionKey := "receipt", rowKey := "a",
    items := json_dumps [{ description := PyVal.str "tea", totalPrice := PyVal.num 0 }],
    subtotal := 0, tax := PyVal.num 0, total := PyVal.num 0 }

/-- A document whose `Total` field is absent, for the C2 witness. -/
def docC2b : AnalyzedDocument := ⟨[("TotalTax", PyVal.num 1)]⟩

/-- Witness for the amended C2: the present-but-null item `TotalPrice`
of `docC2` is extracted as 0 and stored as 0 in the written record, the
present-but-null `TotalTax` and `Total` are stored as 0, and the
absent `Total` of `docC2b` yields no record. -/
theorem analyze_null_fields_default_zero_witness :
    extractItem (PyVal.dict [("Description", PyVal.str "tea"), ("TotalPrice", PyVal.none)]) =
      Except.ok { description := PyVal.str "tea", totalPrice := PyVal.num 0 } ∧
    (json_loads recC2.items).map (fun it => it.totalPrice) = [PyVal.num 0] ∧
    recC2.tax = PyVal.num 0 ∧ recC2.total = PyVal.num 0 ∧
    AnalyzeReceipt "b.jpg" (Except.ok ⟨[docC2b]⟩) = Option.none := by
  have hrun : AnalyzeReceipt "a.jpg" (Except.ok ⟨[docC2]⟩) = some recC2 := by
    simp [docC2, recC2, AnalyzeReceipt, analyzeReceiptBody, buildRecord, itemValuesOf,
      extractItems, extractItem, getValueOrRaise, getField, pySum, pyOr, truthy,
      receiptIdOfBlobName, splitext, lastComponent, splitChar, lastIdxOf, json_dumps,
      round2, round_eq]
    norm_num
  have T := analyze_null_fields_default_zero "a.jpg" docC2 []
  refine ⟨T.2.2.1 _ (PyVal.str "tea") (by rfl) (by rfl), by rfl, ?_, ?_,
    (analyze_null_fields_default_zero "b.jpg" docC2b []).2.1 (by rfl)⟩
  · exact ((T.2.2.2 recC2 hrun).2.2.2.1) (by rfl)
  · exact ((T.2.2.2 recC2 hrun).2.2.2.2) (by rfl)

/-- C4: when the analysis result contains zero recognized documents,
`AnalyzeReceipt` writes nothing, and a subsequent read of that receipt
identifier returns the 404 not-found response. -/
theorem analyze_zero_documents_not_found (bn bn' : String) (t : ResultsTable)
    (hid : (splitext bn').1 = receiptIdOfBlobName bn) (hbn' : bn' ≠ "")
    (hnf : lookupOfTable t "receipt" (receiptIdOfBlobName bn) = LookupOutcome.notFound) :
    AnalyzeReceipt bn (Except.ok ⟨[]⟩) = Option.none ∧
    get_receipt_results (some bn')
        (lookupOfTable (applyWrite t (AnalyzeReceipt bn (Except.ok ⟨[]⟩)))) =
      { statusCode := 404, body := ResponseBody.text "Not found." } := by
  have h0 : AnalyzeReceipt bn (Except.ok ⟨[]⟩) = Option.none := rfl
  refine ⟨h0, ?_⟩
  rw [h0]
  show get_receipt_results (some bn') (lookupOfTable t) = _
  rw [get_receipt_results, if_neg hbn', hid, hnf]
  rfl

/-- Witness for C4 on the empty table. -/
theorem analyze_zero_documents_not_found_witness :
    AnalyzeReceipt "abc.jpg" (Except.ok ⟨[]⟩) = Option.none ∧
    get_receipt_results (some "abc.jpg")
        (lookupOfTable (applyWrite [] (AnalyzeReceipt "abc.jpg" (Except.ok ⟨[]⟩)))) =
      { statusCode := 404, body := ResponseBody.text "Not found." } :=
  analyze_zero_documents_not_found "abc.jpg" "abc.jpg" [] (by rfl) (by decide) (by rfl)

/-- C5: when any step of the `try` body raises, `AnalyzeReceipt` returns
normally (it is a total function whose `except` clause only logs),
writes no record, and leaves the table unchanged. -/
theorem analyze_exception_swallowed (bn msg : String) (a : Except String AnalysisResult)
    (t : ResultsTable)
    (h : analyzeReceiptBody a (receiptIdOfBlobName bn) = Except.error msg) :
    AnalyzeReceipt bn a = Option.none ∧ applyWrite t (AnalyzeReceipt bn a) = t := by
  have h0 : AnalyzeReceipt bn a = Option.none := by
    rw [AnalyzeReceipt, h]
  exact ⟨h0, by rw [h0]; rfl⟩

/-- Witness for C5: a raising analysis call writes nothing and leaves
the empty table empty. -/
theorem analyze_exception_swallowed_witness :
    AnalyzeReceipt "abc.jpg" (Except.error "boom") = Option.none ∧
    applyWrite [] (AnalyzeReceipt "abc.jpg" (Except.error "boom")) = ([] : ResultsTable) :=
  analyze_exception_swallowed "abc.jpg" "boom" (Except.error "boom") [] (by rfl)

/-- C3: `get_receipt_results` returns 400 when the route parameter is
missing or empty, 404 when the lookup raises the not-found error (never
the generic 500), 500 on any other lookup exception, and otherwise 200
with the decoded record as the JSON body. -/
theorem get_receipt_results_statuses (bnp : Option String)
    (tableGet : String → String → LookupOutcome) :
    ((bnp = Option.none ∨ bnp = some "") →
      (get_receipt_results bnp tableGet).statusCode = 400) ∧
    (∀ bn, bnp = some bn → bn ≠ "" →
      (tableGet "receipt" (splitext bn).1 = LookupOutcome.notFound →
        (get_receipt_results bnp tableGet).statusCode = 404) ∧
      (∀ m, tableGet "receipt" (splitext bn).1 = LookupOutcome.failure m →
        (get_receipt_results bnp tableGet).statusCode = 500) ∧
      (∀ e, tableGet "receipt" (splitext bn).1 = LookupOutcome.found e →
        get_receipt_results bnp tableGet =
          { statusCode := 200, body := ResponseBody.jsonRecord (decodeEntity e) })) := by
  constructor
  · rintro (rfl | rfl) <;> rfl
  · rintro bn rfl hne
    refine ⟨?_, ?_, ?_⟩
    · intro h
      simp only [get_receipt_results, if_neg hne, h, handleLookup]
    · intro m h
      simp only [get_receipt_results, if_neg hne, h, handleLookup]
    · intro e h
      simp only [get_receipt_results, if_neg hne, h, handleLookup]

/-- Witness for C3: the not-found branch at a concrete name and table. -/
theorem get_receipt_results_statuses_witness :
    (get_receipt_results (some "x.jpg")
      (fun _ _ => LookupOutcome.notFound)).statusCode = 404 :=
  ((get_receipt_results_statuses (some "x.jpg") (fun _ _ => LookupOutcome.notFound)).2
    "x.jpg" rfl (by decide)).1 rfl

/-- C6: the partition key of any written record is the constant
`"receipt"` and its row key is the object's base filename with the
extension stripped — a deterministic function of the blob name — so two
runs for the same name derive the same key and the second overwrite
leaves exactly one record under that key. -/
theorem analyze_rowkey_idempotent (bn : String) (a1 a2 : Except String AnalysisResult)
    (r1 r2 : TableRecord) (t : ResultsTable)
    (h1 : AnalyzeReceipt bn a1 = some r1) (h2 : AnalyzeReceipt bn a2 = some r2) :
    r1.partitionKey = "receipt" ∧ r2.partitionKey = "receipt" ∧
    r1.rowKey = receiptIdOfBlobName bn ∧ r2.rowKey = receiptIdOfBlobName bn ∧
    (applyWrite (applyWrite t (AnalyzeReceipt bn a1)) (AnalyzeReceipt bn a2)).filter
      (fun x => x.partitionKey == "receipt" && x.rowKey == receiptIdOfBlobName bn) =
      [r2] := by
  obtain ⟨res1, d1, rs1, -, -, hb1⟩ := analyzeReceipt_eq_some _ _ _ h1
  obtain ⟨res2, d2, rs2, -, -, hb2⟩ := analyzeReceipt_eq_some _ _ _ h2
  obtain ⟨iv1, il1, s1, tv1, tot1, -, -, -, -, -, hr1⟩ := buildRecord_eq_ok _ _ _ hb1
  obtain ⟨iv2, il2, s2, tv2, tot2, -, -, -, -, -, hr2⟩ := buildRecord_eq_ok _ _ _ hb2
  subst hr1
  subst hr2
  refine ⟨rfl, rfl, rfl, rfl, ?_⟩
  rw [h1, h2]
  exact upsert_filter_key _ _

/-- Concrete analysis response for the C6 witness. -/
def resC6 : AnalysisResult := ⟨[⟨[("TotalTax", PyVal.none), ("Total", PyVal.none)]⟩]⟩

/-- The record `AnalyzeReceipt` writes for `resC6` under the name
`dup.jpg`. -/
def recC6 : TableRecord :=
  { partitionKey := "receipt", rowKey := "dup", items := json_dumps [],
    subtotal := 0, tax := PyVal.num 0, total := PyVal.num 0 }

/-- Witness for C6: processing `dup.jpg` twice leaves exactly one record
under the derived key. -/
theorem analyze_rowkey_idempotent_witness :
    (applyWrite (applyWrite [] (AnalyzeReceipt "dup.jpg" (Except.ok resC6)))
        (AnalyzeReceipt "dup.jpg" (Except.ok resC6))).filter
      (fun x => x.partitionKey == "receipt" && x.rowKey == receiptIdOfBlobName "dup.jpg") =
      [recC6] :=
  (analyze_rowkey_idempotent "dup.jpg" (Except.ok resC6) (Except.ok resC6) recC6 recC6 []
    (by
      simp [resC6, recC6, AnalyzeReceipt, analyzeReceiptBody, buildRecord, itemValuesOf,
        extractItems, extractItem, getValueOrRaise, getField, pySum, pyOr, truthy,
        receiptIdOfBlobName, splitext, lastComponent, splitChar, lastIdxOf, json_dumps,
        round2, round_eq]
      norm_num
      decide)
    (by
      simp [resC6, recC6, AnalyzeReceipt, analyzeReceiptBody, buildRecord, itemValuesOf,
        extractItems, extractItem, getValueOrRaise, getField, pySum, pyOr, truthy,
        receiptIdOfBlobName, splitext, lastComponent, splitChar, lastIdxOf, json_dumps,
        round2, round_eq]
      norm_num
      decide)).2.2.2.2

/-- C7: every successful `get_upload_url` response is a 200 whose JSON
body has exactly the two fields `sasUrl` and `blobName`, the returned
object key carries the fixed `.jpg` extension, distinct random
identifiers yield distinct keys, and any exception yields a 500. -/
theorem get_upload_url_spec (d : UploadDeps) :
    (∀ tok, d.sasOutcome = Except.ok tok →
      get_upload_url d =
        { statusCode := 200
          body := ResponseBody.jsonObj
            [("sasUrl", uploadSasUrl d tok), ("blobName", uploadBlobName d)] } ∧
      ∃ stem, uploadBlobName d = stem ++ ".jpg") ∧
    (∀ m, d.sasOutcome = Except.error m → (get_upload_url d).statusCode = 500) ∧
    (∀ d' : UploadDeps, d.freshUuid ≠ d'.freshUuid →
      uploadBlobName d ≠ uploadBlobName d') := by
  refine ⟨?_, ?_, ?_⟩
  · intro tok h
    exact ⟨by simp only [get_upload_url, h], ⟨d.freshUuid, rfl⟩⟩
  · intro m h
    simp only [get_upload_url, h]
  · intro d' hne heq
    apply hne
    have hd : d.freshUuid.data ++ ".jpg".data = d'.freshUuid.data ++ ".jpg".data := by
      rw [← String.data_append, ← String.data_append]
      exact congrArg String.data heq
    exact String.ext (List.append_cancel_right hd)

/-- Concrete dependencies for the C7 witness. -/
def depsC7 : UploadDeps := ⟨"acct", "u1", Except.ok "tok"⟩

/-- Witness for C7 at concrete dependencies. -/
theorem get_upload_url_spec_witness :
    get_upload_url depsC7 =
      { statusCode := 200
        body := ResponseBody.jsonObj
          [("sasUrl", uploadSasUrl depsC7 "tok"), ("blobName", uploadBlobName depsC7)] } :=
  ((get_upload_url_spec depsC7).1 "tok" rfl).1

/-- Concrete analysis response for the C8 counterexample: one item whose
`Description` field is present with a `None` value. -/
def resC8 : AnalysisResult :=
  ⟨[⟨[("Items", PyVal.list
        [PyVal.dict [("Description", PyVal.none), ("TotalPrice", PyVal.num 2)]]),
      ("TotalTax", PyVal.none), ("Total", PyVal.none)]⟩]⟩

/-- C8 counterexample: a record is written whose single item has a
`None` description — `item_props.get("Description", {}).value` has no
default, so a null `Description` value is stored verbatim, contradicting
`description: string`. -/
theorem analyze_item_description_can_be_null :
    (AnalyzeReceipt "r.jpg" (Except.ok resC8)).map
      (fun r => (json_loads r.items).map (fun it => it.description)) =
      some [PyVal.none] := by
  rfl

/-- C8 (amended): each stored item's `totalPrice` is numeric (a
non-numeric price would make the subtotal's `sum` raise, so no record
would be written), but the `description` is the verbatim `Description`
value from the response, which may be `None` rather than a string. -/
theorem analyze_item_shape (bn : String) (a : Except String AnalysisResult)
    (r : TableRecord) (h : AnalyzeReceipt bn a = some r) :
    (∀ it ∈ json_loads r.items, ∃ q, it.totalPrice = PyVal.num q) ∧
    (∀ props it, extractItem (PyVal.dict props) = Except.ok it →
      getField "Description" props = some it.description) := by
  constructor
  · obtain ⟨res, doc, rest, -, -, hb⟩ := analyzeReceipt_eq_some _ _ _ h
    obtain ⟨iv, il, s, tv, tot, -, -, h3, -, -, hr⟩ := buildRecord_eq_ok _ _ _ hb
    subst hr
    intro it hit
    exact pySum_ok_mem _ _ h3 _ (List.mem_map_of_mem _ hit)
  · intro props it hok
    obtain ⟨props', d, p, hp, hd, -, hit⟩ := extractItem_eq_ok _ _ hok
    injection hp with hp
    subst hp
    subst hit
    exact hd

/-- Concrete analysis response for the C8 witness. -/
def resC8w : AnalysisResult := ⟨[⟨[("TotalTax", PyVal.none), ("Total", PyVal.none)]⟩]⟩

/-- The record `AnalyzeReceipt` writes for `resC8w`. -/
def recC8w : TableRecord :=
  { partitionKey := "receipt", rowKey := "w", items := json_dumps [],
    subtotal := round2 0, tax := PyVal.num 0, total := PyVal.num 0 }

/-- Witness for the amended C8: a concrete extracted item's description
is the raw `Description` value. -/
theorem analyze_item_shape_witness :
    getField "Description" [("Description", PyVal.str "x"), ("TotalPrice", PyVal.none)] =
      some ({ description := PyVal.str "x", totalPrice := PyVal.num 0 } : ReceiptItem).description :=
  (analyze_item_shape "w.jpg" (Except.ok resC8w) recC8w (by rfl)).2
    [("Description", PyVal.str "x"), ("TotalPrice", PyVal.none)]
    { description := PyVal.str "x", totalPrice := PyVal.num 0 } (by rfl)

/-- A record stored under the full row key `".jpg"`, for the C9
counterexample. -/
def recDot : TableRecord :=
  { partitionKey := "receipt", rowKey := ".jpg", items := json_dumps [],
    subtotal := 0, tax := PyVal.num 0, total := PyVal.num 0 }

/-- C9 counterexample: the identifier `".jpg"` contains a dot, yet
`os.path.splitext` leaves it unchanged (a leading dot never starts an
extension), so the lookup uses the untruncated key `".jpg"` — the reader
finds a record stored under that full key instead of under `""`. -/
theorem reader_leading_dot_not_truncated :
    (splitext ".jpg").1 = ".jpg" ∧
    (get_receipt_results (some ".jpg") (lookupOfTable [recDot])).statusCode = 200 := by
  exact ⟨rfl, rfl⟩

/-- C9 (amended): for every non-empty `blobName` the lookup row key is
`os.path.splitext(blobName)[0]`, not the `blobName` itself; an
identifier whose last dot is preceded (within its final path component)
by some non-dot character is truncated at that last dot, while
identifiers whose dots are all leading are used unchanged. -/
theorem reader_rowkey_splitext (bn : String)
    (tableGet : String → String → LookupOutcome) (hbn : bn ≠ "") :
    get_receipt_results (some bn) tableGet =
      handleLookup (tableGet "receipt" (splitext bn).1) ∧
    (∀ d : Nat, lastIdxOf '.' bn.data = some d →
      (∃ i, ((lastIdxOf '/' bn.data).map (fun j => j + 1)).getD 0 ≤ i ∧ i < d ∧
        bn.data.getD i ' ' ≠ '.') →
      (splitext bn).1 = String.mk (bn.data.take d)) := by
  constructor
  · simp only [get_receipt_results, if_neg hbn]
  · intro d hd hex
    obtain ⟨i, hfi, hid, hne⟩ := hex
    have hany : (List.range' (((lastIdxOf '/' bn.data).map (fun j => j + 1)).getD 0)
        (d - ((lastIdxOf '/' bn.data).map (fun j => j + 1)).getD 0)).any
        (fun k => bn.data.getD k ' ' != '.') = true := by
      refine List.any_eq_true.mpr ⟨i, ?_, ?_⟩
      · rw [List.mem_range'_1]
        exact ⟨hfi, by omega⟩
      · exact bne_iff_ne.mpr hne
    simp only [splitext, hd, hany, if_true]

/-- Witness for the amended C9 at the identifier `a.b.c`: the reader
consults row key `splitext("a.b.c")[0]`, which is the truncation
`"a.b"`. -/
theorem reader_rowkey_splitext_witness :
    get_receipt_results (some "a.b.c") (fun _ _ => LookupOutcome.notFound) =
      handleLookup ((fun _ _ => LookupOutcome.notFound) "receipt" (splitext "a.b.c").1) ∧
    (splitext "a.b.c").1 = String.mk ("a.b.c".data.take 3) :=
  ⟨(reader_rowkey_splitext "a.b.c" (fun _ _ => LookupOutcome.notFound) (by decide)).1,
   (reader_rowkey_splitext "a.b.c" (fun _ _ => LookupOutcome.notFound) (by decide)).2 3
     (by rfl) ⟨0, by decide, by decide, by decide⟩⟩

/-- C10 counterexample: a document with no fields at all has no `Items`
entry, yet no record is written — the `TotalTax` extraction raises
`AttributeError` first, so "still writes a record" fails. -/
theorem analyze_no_items_no_tax_no_record :
    AnalyzeReceipt "n.jpg" (Except.ok ⟨[⟨[]⟩]⟩) = Option.none := by
  rfl

/-- C10 (amended): when the first document's `Items` field is absent,
null, or the empty list, and its `TotalTax` and `Total` fields are
present, a record is written whose decoded items list is empty and whose
subtotal is 0. -/
theorem analyze_missing_items_empty_record (bn : String) (doc : AnalyzedDocument)
    (rest : List AnalyzedDocument)
    (hItems : getField "Items" doc.fields = Option.none ∨
      getField "Items" doc.fields = some PyVal.none ∨
      getField "Items" doc.fields = some (PyVal.list []))
    (hTax : ∃ v, getField "TotalTax" doc.fields = some v)
    (hTot : ∃ v, getField "Total" doc.fields = some v) :
    (AnalyzeReceipt bn (Except.ok ⟨doc :: rest⟩)).map
      (fun r => (json_loads r.items, r.subtotal)) = some ([], 0) := by
  obtain ⟨tv, htv⟩ := hTax
  obtain ⟨tot, htot⟩ := hTot
  have hiv : itemValuesOf doc.fields = Except.ok [] := by
    rcases hItems with h | h | h
    · simp [itemValuesOf, h]
    · simp [itemValuesOf, h, truthy]
    · simp [itemValuesOf, h, truthy]
  have hb : buildRecord (receiptIdOfBlobName bn) doc.fields = Except.ok
      { partitionKey := "receipt", rowKey := receiptIdOfBlobName bn,
        items := json_dumps [], subtotal := round2 0, tax := pyOr tv (PyVal.num 0),
        total := pyOr tot (PyVal.num 0) } := by
    simp [buildRecord, hiv, extractItems, pySum, getValueOrRaise, htv, htot]
  have hA : AnalyzeReceipt bn (Except.ok ⟨doc :: rest⟩) = some
      { partitionKey := "receipt", rowKey := receiptIdOfBlobName bn,
        items := json_dumps [], subtotal := round2 0, tax := pyOr tv (PyVal.num 0),
        total := pyOr tot (PyVal.num 0) } := by
    simp only [AnalyzeReceipt, analyzeReceiptBody, hb]
  rw [hA]
  simp only [Option.map_some']
  norm_num [json_loads, json_dumps, round2, round_eq]

/-- Concrete document for the C10 witness: tax and total present, no
`Items` entry. -/
def docC10 : AnalyzedDocument := ⟨[("TotalTax", PyVal.num 1), ("Total", PyVal.num 2)]⟩

/-- Witness for the amended C10. -/
theorem analyze_missing_items_empty_record_witness :
    (AnalyzeReceipt "n2.jpg" (Except.ok ⟨[docC10]⟩)).map
      (fun r => (json_loads r.items, r.subtotal)) = some ([], 0) :=
  analyze_missing_items_empty_record "n2.jpg" docC10 [] (Or.inl (by rfl))
    ⟨PyVal.num 1, by rfl⟩ ⟨PyVal.num 2, by rfl⟩

end BillSplitter
